import Mathlib

/-!
Shallow embedding of `src/scripts/scheduler.py` (macOS launchd-based task
scheduler with a centralized JSON registry).

The registry is a list of job records, loaded wholesale and rewritten
wholesale.  Each CLI operation (`add`, `remove`, `enable`, `disable`,
`list`, `logs`) is modelled as a pure function from the registry state
(plus the relevant bits of filesystem/daemon state, passed explicitly) to
a result structure that records the new registry, the printed output and
which side effects (plist write, daemon load/unload, registry save) were
performed.  Python-specific behaviours are modelled exactly: dict
truthiness (`schedule.get("interval")` is falsy for 0, an empty dict is
falsy), negative list indexing (`days[cal["Weekday"]]`), floor division
(`//`), and slice semantics (`content[-lines:]`).
-/

namespace Scheduler

/-- A launchd calendar specification: the raw JSON object stored under the
`"calendar"` key, kept as an association list of string keys to integers
(the code copies it through verbatim and later looks up the launchd keys
`"Weekday"`, `"Hour"`, `"Minute"`). -/
abbrev Calendar := List (String × Int)

/-- The `schedule` dict passed to `add_job` and stored in each entry:
optional `interval` (seconds), optional `calendar` object, `run_at_load`
flag (`schedule.get("run_at_load", False)`). -/
structure Schedule where
  interval : Option Int
  calendar : Option Calendar
  run_at_load : Bool
deriving DecidableEq

/-- Python truthiness of `schedule.get("interval")`: present and nonzero. -/
def intervalTruthy : Option Int → Bool
  | some i => i != 0
  | none => false

/-- Python truthiness of `schedule.get("calendar")`: present and a
nonempty dict. -/
def calendarTruthy : Option Calendar → Bool
  | some c => !c.isEmpty
  | none => false

/-- Dict lookup `cal[k]` / `k in cal` on the calendar object (JSON object
keys are unique, so first match is the match). -/
def lookupKey (cal : Calendar) (k : String) : Option Int :=
  (cal.find? (fun p => p.1 == k)).map (fun p => p.2)

/-- `cal.get(k, d)`. -/
def lookupKeyD (cal : Calendar) (k : String) (d : Int) : Int :=
  (lookupKey cal k).getD d

/-- `LABEL_PREFIX + name` (line 55 of the source). -/
def labelOf (name : String) : String :=
  "com.joneshong.scheduler." ++ name

/-- `plist_path(name)` (lines 35-36): the per-job definition file path. -/
def plistPathOf (name : String) : String :=
  "Library/LaunchAgents/com.joneshong.scheduler." ++ name ++ ".plist"

/-- The native launchd job definition built by `add_job` (lines 60-73).
`startInterval`/`startCalendarInterval` are `none` when the corresponding
plist key is absent; `runAtLoad` is `true` exactly when the key is set. -/
structure Plist where
  label : String
  programArguments : List String
  standardOutPath : String
  standardErrorPath : String
  startInterval : Option Int
  startCalendarInterval : Option Calendar
  runAtLoad : Bool
deriving DecidableEq

/-- Lines 60-73 of `add_job`: build the plist dict from the schedule. -/
def buildPlist (name command : String) (schedule : Schedule) : Plist :=
  let base : Plist :=
    { label := labelOf name
      programArguments := ["/bin/zsh", "-lc", command]
      standardOutPath := "scheduler/logs/" ++ name ++ ".log"
      standardErrorPath := "scheduler/logs/" ++ name ++ ".err"
      startInterval := none
      startCalendarInterval := none
      runAtLoad := schedule.run_at_load }
  if intervalTruthy schedule.interval then
    { base with startInterval := schedule.interval }
  else if calendarTruthy schedule.calendar then
    { base with startCalendarInterval := schedule.calendar }
  else
    base

/-- One JobRecord of the registry (lines 87-96). -/
structure Entry where
  name : String
  label : String
  command : String
  schedule : Schedule
  description : String
  plist : String
  enabled : Bool
  created : String
deriving DecidableEq

/-- The structured JSON object printed by `add_job`. -/
inductive AddOutput
  | error (msg : String)
  | added (name plistFile : String) (launchctl : Bool) (schedule : Schedule)
deriving DecidableEq

/-- Result of one `add_job` call: the registry afterwards, the printed
output, and which side effects happened. -/
structure AddResult where
  entries : List Entry
  output : AddOutput
  plistWritten : Option Plist
  daemonLoadRequested : Bool
  registrySaved : Bool
deriving DecidableEq

/-- `add_job(name, command, schedule, description)` (lines 39-106).
`daemonLoadOk` is the outside-world outcome of `launchctl load`
(`result.returncode == 0`); `now` is the creation timestamp. -/
def addJob (entries : List Entry) (name command : String) (schedule : Schedule)
    (description : String) (daemonLoadOk : Bool) (now : String) : AddResult :=
  if entries.any (fun e => e.name == name) then
    { entries := entries
      output := .error ("Job " ++ name ++ " already exists. Remove it first or use a different name.")
      plistWritten := none
      daemonLoadRequested := false
      registrySaved := false }
  else
    let entry : Entry :=
      { name := name
        label := labelOf name
        command := command
        schedule := schedule
        description := description
        plist := plistPathOf name
        enabled := true
        created := now }
    { entries := entries ++ [entry]
      output := .added name (plistPathOf name) daemonLoadOk schedule
      plistWritten := some (buildPlist name command schedule)
      daemonLoadRequested := true
      registrySaved := true }

/-- The structured JSON object printed by `remove_job`. -/
inductive RemoveOutput
  | error (msg : String)
  | removed (name : String)
deriving DecidableEq

/-- Result of one `remove_job` call. -/
structure RemoveResult where
  entries : List Entry
  output : RemoveOutput
  daemonUnloadRequested : Bool
  plistDeleted : Bool
  registrySaved : Bool
deriving DecidableEq

/-- `remove_job(name)` (lines 109-125).  `plistExists` says whether the
definition file is on disk (`pfile.exists()`). -/
def removeJob (entries : List Entry) (name : String) (plistExists : Bool) : RemoveResult :=
  match entries.find? (fun e => e.name == name) with
  | none =>
    { entries := entries
      output := .error ("Job " ++ name ++ " not found.")
      daemonUnloadRequested := false
      plistDeleted := false
      registrySaved := false }
  | some _ =>
    { entries := entries.filter (fun e => !(e.name == name))
      output := .removed name
      daemonUnloadRequested := plistExists
      plistDeleted := plistExists
      registrySaved := true }

/-- The structured JSON object printed by `enable_job`. -/
inductive EnableOutput
  | error (msg : String)
  | enabled (name : String)
deriving DecidableEq

/-- Result of one `enable_job` call.  `plistWritten` records whether any
definition file was (re)created: `enable_job` never writes one. -/
structure EnableResult where
  entries : List Entry
  output : EnableOutput
  daemonLoadRequested : Bool
  plistWritten : Bool
  registrySaved : Bool
deriving DecidableEq

/-- `entry["enabled"] = b` where `entry` is the first record matching
`name` (the `next(...)` on line 130 mutates that record in place). -/
def setEnabledFirst : List Entry → String → Bool → List Entry
  | [], _, _ => []
  | e :: rest, name, b =>
    if e.name == name then { e with enabled := b } :: rest
    else e :: setEnabledFirst rest name b

/-- `enable_job(name)` (lines 128-139). -/
def enableJob (entries : List Entry) (name : String) (plistExists : Bool) : EnableResult :=
  match entries.find? (fun e => e.name == name) with
  | none =>
    { entries := entries
      output := .error ("Job " ++ name ++ " not found.")
      daemonLoadRequested := false
      plistWritten := false
      registrySaved := false }
  | some _ =>
    { entries := setEnabledFirst entries name true
      output := .enabled name
      daemonLoadRequested := plistExists
      plistWritten := false
      registrySaved := true }

/-- The structured JSON object printed by `disable_job`. -/
inductive DisableOutput
  | error (msg : String)
  | disabled (name : String)
deriving DecidableEq

/-- Result of one `disable_job` call. -/
structure DisableResult where
  entries : List Entry
  output : DisableOutput
  daemonUnloadRequested : Bool
  registrySaved : Bool
deriving DecidableEq

/-- `disable_job(name)` (lines 142-153). -/
def disableJob (entries : List Entry) (name : String) (plistExists : Bool) : DisableResult :=
  match entries.find? (fun e => e.name == name) with
  | none =>
    { entries := entries
      output := .error ("Job " ++ name ++ " not found.")
      daemonUnloadRequested := false
      registrySaved := false }
  | some _ =>
    { entries := setEnabledFirst entries name false
      output := .disabled name
      daemonUnloadRequested := plistExists
      registrySaved := true }

/-- Python `f"{n:02d}"`: zero-pad to width 2 (a minus sign counts toward
the width, so negative values come out unchanged for magnitude at least 1
digit, exactly as in Python). -/
def pad2 (n : Int) : String :=
  if 0 ≤ n ∧ n < 10 then "0" ++ toString n else toString n

/-- The weekday-name table of `list_jobs` (line 180). -/
def days : List String := ["Sun", "Mon", "Tue", "Wed", "Thu", "Fri", "Sat"]

/-- Python list indexing `xs[i]`: non-negative indices from the front,
negative indices from the back, `none` = `IndexError`. -/
def pyIndex (xs : List String) (i : Int) : Option String :=
  if 0 ≤ i then xs.get? i.toNat
  else if 0 ≤ i + xs.length then xs.get? (i + xs.length).toNat
  else none

/-- Lines 176-184 of `list_jobs`: render a (truthy) calendar schedule.
`Except.error` models the uncaught `IndexError` from `days[cal["Weekday"]]`. -/
def renderCalendar (cal : Calendar) : Except String String :=
  let withWeekday : Except String (List String) :=
    match lookupKey cal "Weekday" with
    | some w =>
      match pyIndex days w with
      | some d => Except.ok [d]
      | none => Except.error "IndexError: list index out of range"
    | none => Except.ok []
  match withWeekday with
  | Except.error e => Except.error e
  | Except.ok parts =>
    let parts :=
      match lookupKey cal "Hour" with
      | some h => parts ++ [pad2 h ++ ":" ++ pad2 (lookupKeyD cal "Minute" 0)]
      | none => parts
    Except.ok (if parts.isEmpty then "calendar" else String.intercalate " " parts)

/-- Lines 171-184 of `list_jobs`: the human-readable schedule summary of
one record (`schedule_desc`).  Python `//` is floor division, hence
`Int.fdiv`. -/
def scheduleDesc (s : Schedule) : Except String String :=
  if intervalTruthy s.interval then
    let i := s.interval.getD 0
    let mins := Int.fdiv i 60
    Except.ok (if 0 < mins then "every " ++ toString mins ++ " min"
               else "every " ++ toString i ++ "s")
  else if calendarTruthy s.calendar then
    renderCalendar (s.calendar.getD [])
  else
    Except.ok ""

/-- One row of the `{"jobs": [...]}` output of `list_jobs` (lines 186-192). -/
structure JobRow where
  name : String
  enabled : Bool
  schedule : String
  command : String
  description : String
deriving DecidableEq

/-- Lines 186-192 of `list_jobs`: one output row. -/
def mkRow (e : Entry) (d : String) : JobRow :=
  { name := e.name
    enabled := e.enabled
    schedule := d
    command := e.command.take 80
    description := e.description }

/-- Lines 169-194 of `list_jobs`: render the records in order; an
uncaught `IndexError` at any record aborts the whole listing. -/
def listJobs : List Entry → Except String (List JobRow)
  | [] => Except.ok []
  | e :: rest =>
    match scheduleDesc e.schedule with
    | Except.error msg => Except.error msg
    | Except.ok d =>
      match listJobs rest with
      | Except.error msg => Except.error msg
      | Except.ok rows => Except.ok (mkRow e d :: rows)

/-- The structured result printed by `show_logs` (lines 197-209). -/
structure LogsResult where
  stdout : Option (List String)
  stderr : Option (List String)
  message : Option String
deriving DecidableEq

/-- Python `content[-lines:]` on a list of strings: for `lines > 0` the
last `min(lines, len)` elements; for `lines = 0` the start index is
`-0 = 0`, so the WHOLE list; for `lines < 0` it drops the first `-lines`
elements. -/
def pySliceLast (xs : List String) (lines : Int) : List String :=
  if lines ≤ 0 then xs.drop (-lines).toNat
  else xs.drop (xs.length - lines.toNat)

/-- Python `str.strip()`: drop whitespace from both ends. -/
def pyStrip (content : String) : String :=
  String.mk
    ((((content.data.dropWhile Char.isWhitespace).reverse).dropWhile
        Char.isWhitespace).reverse)

/-- Python `str.split("\n")` on an explicit character list: split at every
newline; the empty string yields the single part `""`. -/
def splitNL : List Char → List String
  | [] => [""]
  | c :: rest =>
    if c = '\n' then "" :: splitNL rest
    else
      match splitNL rest with
      | [] => [String.mk [c]]
      | w :: ws => String.mk (c :: w.data) :: ws

/-- `content = file.read_text().strip().split("\n")` (lines 202, 205). -/
def splitLines (content : String) : List String :=
  splitNL (pyStrip content).data

/-- `show_logs(name, lines)` (lines 197-209).  `logContent`/`errContent`
are the contents of `<name>.log` / `<name>.err` when those files exist. -/
def showLogs (name : String) (logContent errContent : Option String)
    (lines : Int) : LogsResult :=
  let stdout := logContent.map (fun c => pySliceLast (splitLines c) lines)
  let stderr := errContent.map (fun c => pySliceLast (splitLines c) lines)
  { stdout := stdout
    stderr := stderr
    message :=
      if stdout.isNone && stderr.isNone then
        some ("No logs found for " ++ name)
      else none }

/-- A concrete job record used as a test fixture in witnesses. -/
def mkEntry (name command : String) (s : Schedule) (enabled : Bool) : Entry :=
  { name := name
    label := labelOf name
    command := command
    schedule := s
    description := ""
    plist := plistPathOf name
    enabled := enabled
    created := "2026-10-12T00:00:00" }

/-- One CLI operation on the registry, with the outside-world inputs it
consumes (daemon outcome, plist-file existence, timestamp) baked in. -/
inductive Op
  | add (name command : String) (schedule : Schedule) (description : String)
        (daemonLoadOk : Bool) (now : String)
  | remove (name : String) (plistExists : Bool)
  | enable (name : String) (plistExists : Bool)
  | disable (name : String) (plistExists : Bool)

/-- The registry after one operation. -/
def applyOp (entries : List Entry) : Op → List Entry
  | .add name command schedule description ok now =>
    (addJob entries name command schedule description ok now).entries
  | .remove name pe => (removeJob entries name pe).entries
  | .enable name pe => (enableJob entries name pe).entries
  | .disable name pe => (disableJob entries name pe).entries

/-- The registry after a sequence of operations. -/
def runOps (entries : List Entry) : List Op → List Entry
  | [] => entries
  | op :: rest => runOps (applyOp entries op) rest

/-! ## Helper lemmas -/

theorem map_name_setEnabledFirst (l : List Entry) (n : String) (b : Bool) :
    (setEnabledFirst l n b).map Entry.name = l.map Entry.name := by
  induction l with
  | nil => rfl
  | cons e rest ih =>
    simp only [setEnabledFirst]
    by_cases h : e.name == n
    · simp [h]
    · simp [h, ih]

theorem nodup_applyOp (entries : List Entry) (op : Op)
    (h : (entries.map Entry.name).Nodup) :
    ((applyOp entries op).map Entry.name).Nodup := by
  cases op with
  | add name command schedule description ok now =>
    simp only [applyOp, addJob]
    split
    · exact h
    · rename_i hdup
      rw [List.map_append]
      refine List.Nodup.append h (List.nodup_singleton _) ?_
      intro x hx1 hx2
      simp only [List.map_cons, List.map_nil, List.mem_singleton] at hx2
      subst hx2
      obtain ⟨e, he, hname⟩ := List.mem_map.mp hx1
      exact hdup (List.any_eq_true.mpr ⟨e, he, by simp [hname]⟩)
  | remove name pe =>
    simp only [applyOp, removeJob]
    split
    · exact h
    · exact ((List.filter_sublist entries).map Entry.name).nodup h
  | enable name pe =>
    simp only [applyOp, enableJob]
    split
    · exact h
    · rw [map_name_setEnabledFirst]; exact h
  | disable name pe =>
    simp only [applyOp, disableJob]
    split
    · exact h
    · rw [map_name_setEnabledFirst]; exact h

/-! ## C1 -/

/-- C1: starting from a registry whose records have pairwise-distinct
names, after any sequence of add/remove/enable/disable operations no two
JobRecords in the registry share the same name (add refuses a duplicate
name, and no other operation introduces a record). -/
theorem registry_name_uniqueness (entries : List Entry) (ops : List Op)
    (h : (entries.map Entry.name).Nodup) :
    ((runOps entries ops).map Entry.name).Nodup := by
  induction ops generalizing entries with
  | nil => exact h
  | cons op rest ih => exact ih _ (nodup_applyOp entries op h)

/-- Witness for C1: a concrete run (add, duplicate add, enable, remove,
re-add) from the empty registry keeps names pairwise distinct. -/
theorem registry_name_uniqueness_witness :
    (((List.nil : List Entry).map Entry.name).Nodup) ∧
    ((runOps []
      [Op.add "backup" "rsync" { interval := some 3600, calendar := none, run_at_load := false } "" true "t1",
       Op.add "backup" "other" { interval := some 60, calendar := none, run_at_load := false } "" true "t2",
       Op.add "report" "mail" { interval := none, calendar := some [("Hour", 9)], run_at_load := false } "" false "t3",
       Op.enable "backup" true,
       Op.remove "backup" true,
       Op.add "backup" "rsync2" { interval := some 60, calendar := none, run_at_load := false } "" true "t4"]).map
        Entry.name).Nodup :=
  ⟨by decide, registry_name_uniqueness _ _ (by decide)⟩

/-! ## C2 -/

/-- C2: `add` with a name already present in the registry reports a
duplicate-name error and performs no mutation: the registry afterwards is
exactly the same list of records (and, names being pairwise distinct,
contains exactly one record with that name), no definition file is
written, no daemon load is requested, and the registry file is not
rewritten. -/
theorem addJob_duplicate_reports_error_no_mutation
    (entries : List Entry) (name command : String) (schedule : Schedule)
    (description : String) (ok : Bool) (now : String)
    (hnodup : (entries.map Entry.name).Nodup)
    (hpresent : ∃ e ∈ entries, e.name = name) :
    (addJob entries name command schedule description ok now).entries = entries ∧
    (∃ msg, (addJob entries name command schedule description ok now).output
      = AddOutput.error msg) ∧
    (addJob entries name command schedule description ok now).plistWritten = none ∧
    (addJob entries name command schedule description ok now).daemonLoadRequested = false ∧
    (addJob entries name command schedule description ok now).registrySaved = false ∧
    entries.countP (fun e => e.name == name) = 1 := by
  obtain ⟨e, he, hname⟩ := hpresent
  have hany : entries.any (fun e => e.name == name) = true :=
    List.any_eq_true.mpr ⟨e, he, by simp [hname]⟩
  refine ⟨?_, ?_, ?_, ?_, ?_, ?_⟩
  · simp [addJob, hany]
  · exact ⟨"Job " ++ name ++ " already exists. Remove it first or use a different name.",
      by simp [addJob, hany]⟩
  · simp [addJob, hany]
  · simp [addJob, hany]
  · simp [addJob, hany]
  · have hcount : List.count name (entries.map Entry.name) = 1 := by
      have hmem : name ∈ entries.map Entry.name :=
        List.mem_map.mpr ⟨e, he, hname⟩
      exact List.count_eq_one_of_mem hnodup hmem
    calc entries.countP (fun e => e.name == name)
        = List.countP (fun x => x == name) (entries.map Entry.name) := by
          rw [List.countP_map]; rfl
      _ = 1 := hcount

/-- Witness for C2: adding "backup" twice leaves one "backup" record and
the second call mutates nothing. -/
theorem addJob_duplicate_reports_error_no_mutation_witness :
    (([mkEntry "backup" "rsync" { interval := some 3600, calendar := none, run_at_load := false } true].map
        Entry.name).Nodup) ∧
    (∃ e ∈ [mkEntry "backup" "rsync" { interval := some 3600, calendar := none, run_at_load := false } true],
      e.name = "backup") ∧
    ((addJob [mkEntry "backup" "rsync" { interval := some 3600, calendar := none, run_at_load := false } true]
        "backup" "rsync" { interval := some 3600, calendar := none, run_at_load := false } "" true "t2").entries
      = [mkEntry "backup" "rsync" { interval := some 3600, calendar := none, run_at_load := false } true] ∧
     (∃ msg, (addJob [mkEntry "backup" "rsync" { interval := some 3600, calendar := none, run_at_load := false } true]
        "backup" "rsync" { interval := some 3600, calendar := none, run_at_load := false } "" true "t2").output
      = AddOutput.error msg) ∧
     (addJob [mkEntry "backup" "rsync" { interval := some 3600, calendar := none, run_at_load := false } true]
        "backup" "rsync" { interval := some 3600, calendar := none, run_at_load := false } "" true "t2").plistWritten = none ∧
     (addJob [mkEntry "backup" "rsync" { interval := some 3600, calendar := none, run_at_load := false } true]
        "backup" "rsync" { interval := some 3600, calendar := none, run_at_load := false } "" true "t2").daemonLoadRequested = false ∧
     (addJob [mkEntry "backup" "rsync" { interval := some 3600, calendar := none, run_at_load := false } true]
        "backup" "rsync" { interval := some 3600, calendar := none, run_at_load := false } "" true "t2").registrySaved = false ∧
     List.countP (fun e => e.name == "backup")
       [mkEntry "backup" "rsync" { interval := some 3600, calendar := none, run_at_load := false } true] = 1) :=
  ⟨by decide, ⟨mkEntry "backup" "rsync" { interval := some 3600, calendar := none, run_at_load := false } true,
      by decide, by decide⟩,
    addJob_duplicate_reports_error_no_mutation _ _ _ _ _ _ _ (by decide)
      ⟨mkEntry "backup" "rsync" { interval := some 3600, calendar := none, run_at_load := false } true,
        by decide, by decide⟩⟩

/-! ## C3 -/

/-- C3: `remove` with a name not present in the registry reports a
not-found error and changes nothing: the registry is unchanged, no
definition file is deleted, no daemon unload is requested, and the
registry file is not rewritten. -/
theorem removeJob_notfound_reports_error_no_mutation
    (entries : List Entry) (name : String) (plistExists : Bool)
    (habsent : ∀ e ∈ entries, e.name ≠ name) :
    (removeJob entries name plistExists).entries = entries ∧
    (∃ msg, (removeJob entries name plistExists).output = RemoveOutput.error msg) ∧
    (removeJob entries name plistExists).daemonUnloadRequested = false ∧
    (removeJob entries name plistExists).plistDeleted = false ∧
    (removeJob entries name plistExists).registrySaved = false := by
  have hfind : entries.find? (fun e => e.name == name) = none :=
    List.find?_eq_none.mpr (fun e he => by simp [habsent e he])
  exact ⟨by simp [removeJob, hfind],
    ⟨"Job " ++ name ++ " not found.", by simp [removeJob, hfind]⟩,
    by simp [removeJob, hfind], by simp [removeJob, hfind],
    by simp [removeJob, hfind]⟩

/-- Witness for C3: removing "ghost" from a one-record registry for
"backup" changes nothing. -/
theorem removeJob_notfound_reports_error_no_mutation_witness :
    (∀ e ∈ [mkEntry "backup" "rsync" { interval := some 3600, calendar := none, run_at_load := false } true],
      e.name ≠ "ghost") ∧
    ((removeJob [mkEntry "backup" "rsync" { interval := some 3600, calendar := none, run_at_load := false } true]
        "ghost" true).entries
      = [mkEntry "backup" "rsync" { interval := some 3600, calendar := none, run_at_load := false } true] ∧
     (∃ msg, (removeJob [mkEntry "backup" "rsync" { interval := some 3600, calendar := none, run_at_load := false } true]
        "ghost" true).output = RemoveOutput.error msg) ∧
     (removeJob [mkEntry "backup" "rsync" { interval := some 3600, calendar := none, run_at_load := false } true]
        "ghost" true).daemonUnloadRequested = false ∧
     (removeJob [mkEntry "backup" "rsync" { interval := some 3600, calendar := none, run_at_load := false } true]
        "ghost" true).plistDeleted = false ∧
     (removeJob [mkEntry "backup" "rsync" { interval := some 3600, calendar := none, run_at_load := false } true]
        "ghost" true).registrySaved = false) :=
  ⟨by decide, removeJob_notfound_reports_error_no_mutation _ _ _ (by decide)⟩

/-! ## C4 -/

/-- Counterexample for C4 as stated: with BOTH fields supplied but
`interval = 0` (a supplied value that Python treats as falsy in
`schedule.get("interval")`), the translated definition carries the
calendar fields and no interval field — not "only the interval field". -/
theorem buildPlist_zero_interval_calendar_wins :
    (buildPlist "job" "cmd"
      { interval := some 0, calendar := some [("Hour", 9)], run_at_load := false }).startCalendarInterval
      = some [("Hour", 9)] ∧
    (buildPlist "job" "cmd"
      { interval := some 0, calendar := some [("Hour", 9)], run_at_load := false }).startInterval
      = none :=
  ⟨rfl, rfl⟩

/-- C4 (amended): for every schedule in which both interval and calendar
are supplied and the interval is nonzero (Python truthiness of
`schedule.get("interval")`), the translated native definition contains
only the interval field (`StartInterval`) and never any calendar fields;
a supplied interval of 0 is treated as absent and the calendar is used
instead. -/
theorem buildPlist_interval_precedence (name command : String) (i : Int)
    (cal : Calendar) (ral : Bool) (h : i ≠ 0) :
    (buildPlist name command
      { interval := some i, calendar := some cal, run_at_load := ral }).startInterval = some i ∧
    (buildPlist name command
      { interval := some i, calendar := some cal, run_at_load := ral }).startCalendarInterval = none := by
  have ht : intervalTruthy (some i) = true := by
    simp [intervalTruthy, h]
  constructor <;> simp [buildPlist, ht]

/-- Witness for C4: `{interval: 60, calendar: {Hour: 9}}` translates to
`StartInterval = 60` with no calendar field. -/
theorem buildPlist_interval_precedence_witness :
    ((60 : Int) ≠ 0) ∧
    ((buildPlist "backup" "rsync"
      { interval := some 60, calendar := some [("Hour", 9)], run_at_load := false }).startInterval = some 60 ∧
     (buildPlist "backup" "rsync"
      { interval := some 60, calendar := some [("Hour", 9)], run_at_load := false }).startCalendarInterval = none) :=
  ⟨by decide, buildPlist_interval_precedence "backup" "rsync" 60 [("Hour", 9)] false (by decide)⟩

/-! ## C5 -/

/-- C5: `add` with a fresh name appends a JobRecord with `enabled = true`
and persists the registry whatever the daemon load outcome is (in
particular when the load fails), and the printed result carries that
outcome in its `launchctl` field: daemon refusal is never fatal to the
registry mutation. -/
theorem addJob_fresh_appends_despite_daemon_failure
    (entries : List Entry) (name command : String) (schedule : Schedule)
    (description : String) (daemonLoadOk : Bool) (now : String)
    (hfresh : ∀ e ∈ entries, e.name ≠ name) :
    ∃ entry : Entry,
      (addJob entries name command schedule description daemonLoadOk now).entries
        = entries ++ [entry] ∧
      entry.name = name ∧
      entry.enabled = true ∧
      (addJob entries name command schedule description daemonLoadOk now).registrySaved = true ∧
      (addJob entries name command schedule description daemonLoadOk now).output
        = AddOutput.added name (plistPathOf name) daemonLoadOk schedule := by
  have hany : entries.any (fun e => e.name == name) = false := by
    rw [List.any_eq_false]
    intro e he
    simp [hfresh e he]
  refine ⟨{ name := name, label := labelOf name, command := command,
            schedule := schedule, description := description,
            plist := plistPathOf name, enabled := true, created := now },
    ?_, rfl, rfl, ?_, ?_⟩ <;> simp [addJob, hany]

/-- Witness for C5: adding "backup" to the empty registry with a FAILED
daemon load still appends the enabled record, saves the registry, and
reports `launchctl = false`. -/
theorem addJob_fresh_appends_despite_daemon_failure_witness :
    (∀ e ∈ (List.nil : List Entry), e.name ≠ "backup") ∧
    (∃ entry : Entry,
      (addJob [] "backup" "rsync"
        { interval := some 3600, calendar := none, run_at_load := false } "" false "t1").entries
        = [] ++ [entry] ∧
      entry.name = "backup" ∧
      entry.enabled = true ∧
      (addJob [] "backup" "rsync"
        { interval := some 3600, calendar := none, run_at_load := false } "" false "t1").registrySaved = true ∧
      (addJob [] "backup" "rsync"
        { interval := some 3600, calendar := none, run_at_load := false } "" false "t1").output
        = AddOutput.added "backup" (plistPathOf "backup") false
            { interval := some 3600, calendar := none, run_at_load := false }) :=
  ⟨by simp, addJob_fresh_appends_despite_daemon_failure [] "backup" "rsync"
    { interval := some 3600, calendar := none, run_at_load := false } "" false "t1" (by simp)⟩

/-! ## C6 -/

/-- Counterexample for C6 as stated: interval 90 is positive and NOT a
whole number of minutes, yet the summary is "every 1 min" (the code floor
divides by 60 and only falls back to seconds when the quotient is 0), not
"every 90s" as the claim requires. -/
theorem scheduleDesc_interval_ninety_renders_minutes :
    scheduleDesc { interval := some 90, calendar := none, run_at_load := false }
      = Except.ok "every 1 min" ∧
    ¬((90 : Int) % 60 = 0) ∧
    "every 1 min" ≠ "every 90s" :=
  ⟨rfl, by decide, by decide⟩

/-- C6 (amended): for a positive interval of N seconds the summary is
"every (N // 60) min" (floor division) exactly when N is at least 60
seconds — not only when N is a whole number of minutes — and "every Ns"
otherwise; in particular interval 3600 renders as "every 60 min". -/
theorem scheduleDesc_interval_render (N : Int) (h : 0 < N) :
    scheduleDesc { interval := some N, calendar := none, run_at_load := false } =
      Except.ok (if 60 ≤ N then "every " ++ toString (Int.fdiv N 60) ++ " min"
                 else "every " ++ toString N ++ "s") ∧
    scheduleDesc { interval := some 3600, calendar := none, run_at_load := false } =
      Except.ok "every 60 min" := by
  constructor
  · have ht : intervalTruthy (some N) = true := by
      simp only [intervalTruthy, bne_iff_ne, ne_eq, decide_eq_true_eq]
      omega
    have hiff : (0 < Int.fdiv N 60) ↔ (60 ≤ N) := by
      rw [Int.fdiv_eq_tdiv (le_of_lt h) (by norm_num),
          Int.tdiv_eq_ediv (le_of_lt h) (by norm_num)]
      omega
    simp only [scheduleDesc, ht, if_true, Option.getD_some]
    congr 1
    by_cases h60 : 60 ≤ N
    · rw [if_pos (hiff.mpr h60), if_pos h60]
    · rw [if_neg (fun hh => h60 (hiff.mp hh)), if_neg h60]
  · rfl

/-- Witness for C6: interval 3600 is positive and renders as
"every 60 min"; interval 30 renders as "every 30s". -/
theorem scheduleDesc_interval_render_witness :
    ((0 : Int) < 3600) ∧
    (scheduleDesc { interval := some 3600, calendar := none, run_at_load := false } =
      Except.ok (if (60 : Int) ≤ 3600
                 then "every " ++ toString (Int.fdiv 3600 60) ++ " min"
                 else "every " ++ toString (3600 : Int) ++ "s") ∧
     scheduleDesc { interval := some 3600, calendar := none, run_at_load := false } =
      Except.ok "every 60 min") :=
  ⟨by decide, scheduleDesc_interval_render 3600 (by decide)⟩

/-! ## C7 -/

/-- Counterexample for C7 as stated: with the spec scenario's lowercase
keys `{"calendar": {"weekday": 1, "hour": 10, "minute": 0}}` the renderer
finds neither `"Weekday"` nor `"Hour"` (it checks the capitalized launchd
keys) and falls back to the literal "calendar", not "Mon 10:00". -/
theorem scheduleDesc_lowercase_calendar_falls_back :
    scheduleDesc { interval := none,
                   calendar := some [("weekday", 1), ("hour", 10), ("minute", 0)],
                   run_at_load := false }
      = Except.ok "calendar" ∧
    "calendar" ≠ "Mon 10:00" :=
  ⟨rfl, by decide⟩

/-- C7 (amended): for a job whose schedule is
`{"calendar": {"Weekday": 1, "Hour": 10, "Minute": 0}}` — the capitalized
launchd keys the code's docstring and usage text prescribe — the summary
is "Mon 10:00" (weekday mapped through the 0=Sunday..6=Saturday table,
hour zero-padded, and the minute defaulting to 0 when absent). -/
theorem scheduleDesc_capitalized_calendar_renders :
    scheduleDesc { interval := none,
                   calendar := some [("Weekday", 1), ("Hour", 10), ("Minute", 0)],
                   run_at_load := false }
      = Except.ok "Mon 10:00" ∧
    scheduleDesc { interval := none,
                   calendar := some [("Weekday", 1), ("Hour", 10)],
                   run_at_load := false }
      = Except.ok "Mon 10:00" :=
  ⟨rfl, rfl⟩

/-! ## C8 -/

/-- Counterexample for C8 as stated: "backup" is in the registry but its
definition file is missing, and `enable` prints the plain success object
`{"status": "enabled", "name": "backup"}` — it does not report the
missing definition file (it merely skips the `launchctl load`). -/
theorem enableJob_missing_plist_plain_success :
    (enableJob
      [mkEntry "backup" "rsync" { interval := some 3600, calendar := none, run_at_load := false } false]
      "backup" false).output = EnableOutput.enabled "backup" ∧
    (enableJob
      [mkEntry "backup" "rsync" { interval := some 3600, calendar := none, run_at_load := false } false]
      "backup" false).daemonLoadRequested = false :=
  ⟨rfl, rfl⟩

/-- C8 (amended): for every name present in the registry whose definition
file is missing from disk, `enable(name)` silently skips the daemon load
and reports plain success; the inconsistency is neither reported to the
caller nor repaired (no definition file is written), while the registry is
still rewritten with `enabled = true`. -/
theorem enableJob_missing_plist_silent_success
    (entries : List Entry) (name : String)
    (hpresent : ∃ e ∈ entries, e.name = name) :
    (enableJob entries name false).output = EnableOutput.enabled name ∧
    (enableJob entries name false).daemonLoadRequested = false ∧
    (enableJob entries name false).plistWritten = false ∧
    (enableJob entries name false).registrySaved = true ∧
    (enableJob entries name false).entries = setEnabledFirst entries name true := by
  obtain ⟨e, he, hname⟩ := hpresent
  have hfind : ∃ x, entries.find? (fun e => e.name == name) = some x := by
    rw [← Option.isSome_iff_exists, List.find?_isSome]
    exact ⟨e, he, by simp [hname]⟩
  obtain ⟨x, hx⟩ := hfind
  refine ⟨?_, ?_, ?_, ?_, ?_⟩ <;> simp [enableJob, hx]

/-- Witness for C8: the concrete registry of the counterexample scenario,
run through the amended statement. -/
theorem enableJob_missing_plist_silent_success_witness :
    (∃ e ∈ [mkEntry "backup" "rsync" { interval := some 3600, calendar := none, run_at_load := false } false],
      e.name = "backup") ∧
    ((enableJob
        [mkEntry "backup" "rsync" { interval := some 3600, calendar := none, run_at_load := false } false]
        "backup" false).output = EnableOutput.enabled "backup" ∧
     (enableJob
        [mkEntry "backup" "rsync" { interval := some 3600, calendar := none, run_at_load := false } false]
        "backup" false).daemonLoadRequested = false ∧
     (enableJob
        [mkEntry "backup" "rsync" { interval := some 3600, calendar := none, run_at_load := false } false]
        "backup" false).plistWritten = false ∧
     (enableJob
        [mkEntry "backup" "rsync" { interval := some 3600, calendar := none, run_at_load := false } false]
        "backup" false).registrySaved = true ∧
     (enableJob
        [mkEntry "backup" "rsync" { interval := some 3600, calendar := none, run_at_load := false } false]
        "backup" false).entries
       = setEnabledFirst
           [mkEntry "backup" "rsync" { interval := some 3600, calendar := none, run_at_load := false } false]
           "backup" true) :=
  ⟨⟨mkEntry "backup" "rsync" { interval := some 3600, calendar := none, run_at_load := false } false,
      by decide, by decide⟩,
    enableJob_missing_plist_silent_success _ _
      ⟨mkEntry "backup" "rsync" { interval := some 3600, calendar := none, run_at_load := false } false,
        by decide, by decide⟩⟩

/-! ## C9 -/

/-- Counterexample for C9 as stated: `lineCount = 0` is non-negative, the
log file holds the two lines "a" and "b", and `show_logs` returns BOTH of
them (Python `content[-0:]` is `content[0:]`, the whole list), which is
more than `lineCount` lines. -/
theorem showLogs_zero_linecount_returns_all :
    (showLogs "backup" (some "a\nb") none 0).stdout = some ["a", "b"] ∧
    ¬((["a", "b"] : List String).length ≤ 0) :=
  ⟨by decide, by decide⟩

/-- C9 (amended): for every job name and every POSITIVE lineCount
(default 20), `logs` returns at most lineCount most recent (trailing)
lines of each of stdout and stderr when the corresponding log files
exist, and a "no logs found" message when neither exists; a lineCount of
0 instead returns all lines (Python slice `[-0:]`). -/
theorem showLogs_positive_linecount
    (name : String) (lc ec : Option String) (n : Int) (h : 0 < n) :
    (∀ c s, lc = some c → (showLogs name lc ec n).stdout = some s →
      s.length ≤ n.toNat ∧ s <:+ splitLines c) ∧
    (∀ c s, ec = some c → (showLogs name lc ec n).stderr = some s →
      s.length ≤ n.toNat ∧ s <:+ splitLines c) ∧
    (lc = none → ec = none →
      (showLogs name lc ec n).message = some ("No logs found for " ++ name)) := by
  have key : ∀ xs : List String,
      (pySliceLast xs n).length ≤ n.toNat ∧ pySliceLast xs n <:+ xs := by
    intro xs
    have hn : ¬(n ≤ 0) := by omega
    simp only [pySliceLast, hn, if_false]
    exact ⟨by rw [List.length_drop]; omega, List.drop_suffix _ _⟩
  refine ⟨?_, ?_, ?_⟩
  · intro c s hlc hst
    subst hlc
    simp only [showLogs, Option.map_some', Option.some.injEq] at hst
    rw [← hst]
    exact key _
  · intro c s hec hst
    subst hec
    simp only [showLogs, Option.map_some', Option.some.injEq] at hst
    rw [← hst]
    exact key _
  · intro h1 h2
    subst h1; subst h2
    simp [showLogs]

/-- Witness for C9: lineCount 1 on a two-line stdout log returns at most
one trailing line, and with no files at all the "no logs" message shows. -/
theorem showLogs_positive_linecount_witness :
    ((0 : Int) < 1) ∧
    ((∀ c s, (some "a\nb" : Option String) = some c →
        (showLogs "backup" (some "a\nb") none 1).stdout = some s →
        s.length ≤ (1 : Int).toNat ∧ s <:+ splitLines c) ∧
     (∀ c s, (none : Option String) = some c →
        (showLogs "backup" (some "a\nb") none 1).stderr = some s →
        s.length ≤ (1 : Int).toNat ∧ s <:+ splitLines c) ∧
     ((some "a\nb" : Option String) = none → (none : Option String) = none →
        (showLogs "backup" (some "a\nb") none 1).message
          = some ("No logs found for " ++ "backup"))) :=
  ⟨by decide, showLogs_positive_linecount "backup" (some "a\nb") none 1 (by decide)⟩

/-! ## C10 -/

theorem isSome_get?_iff (l : List String) (m : Nat) :
    (l.get? m).isSome ↔ m < l.length := by
  induction l generalizing m with
  | nil => simp
  | cons a rest ih =>
    cases m with
    | zero => simp
    | succ k => simpa using ih k

theorem renderCalendar_error_msg (cal : Calendar) (m : String)
    (h : renderCalendar cal = Except.error m) :
    m = "IndexError: list index out of range" := by
  cases hw : lookupKey cal "Weekday" with
  | none => simp [renderCalendar, hw] at h
  | some w =>
    cases hp : pyIndex days w with
    | none =>
      simp only [renderCalendar, hw, hp, Except.error.injEq] at h
      exact h.symm
    | some d => simp [renderCalendar, hw, hp] at h

theorem scheduleDesc_error_msg (s : Schedule) (m : String)
    (h : scheduleDesc s = Except.error m) :
    m = "IndexError: list index out of range" := by
  by_cases hi : intervalTruthy s.interval
  · simp [scheduleDesc, hi] at h
  · by_cases hc : calendarTruthy s.calendar
    · simp only [scheduleDesc, hi, Bool.false_eq_true, if_false, hc, if_true] at h
      exact renderCalendar_error_msg _ _ h
    · simp [scheduleDesc, hi, hc] at h

theorem listJobs_error_of_mem (entries : List Entry) (e : Entry)
    (he : e ∈ entries) (m : String)
    (hm : scheduleDesc e.schedule = Except.error m) :
    listJobs entries = Except.error "IndexError: list index out of range" := by
  induction entries with
  | nil => cases he
  | cons a rest ih =>
    simp only [listJobs]
    cases hd : scheduleDesc a.schedule with
    | error msg =>
      rw [scheduleDesc_error_msg _ _ hd]
    | ok d =>
      rcases List.mem_cons.mp he with h1 | hrest
      · rw [h1, hd] at hm; cases hm
      · rw [ih hrest]

/-- C10: a registry holding a record whose (active) calendar schedule has
a `"Weekday"` value of 7 or more makes `list` abort with an uncaught
`IndexError` at the weekday-name lookup instead of producing a listing;
the 7-element weekday table lookup succeeds exactly for the valid
(possibly negative) Python indices, -7 ≤ w < 7. -/
theorem listJobs_weekday_out_of_range
    (entries : List Entry) (e : Entry) (he : e ∈ entries)
    (cal : Calendar) (hcal : e.schedule.calendar = some cal)
    (hint : intervalTruthy e.schedule.interval = false)
    (w : Int) (hw : lookupKey cal "Weekday" = some w) (h7 : 7 ≤ w) :
    listJobs entries = Except.error "IndexError: list index out of range" ∧
    (∀ i : Int, (pyIndex days i).isSome ↔ (-7 ≤ i ∧ i < 7)) := by
  constructor
  · have hpy : pyIndex days w = none := by
      simp only [pyIndex]
      rw [if_pos (by omega)]
      cases hg : days.get? w.toNat with
      | none => rfl
      | some d =>
        have := (isSome_get?_iff days w.toNat).mp (by rw [hg]; rfl)
        have hlen : days.length = 7 := rfl
        rw [hlen] at this
        omega
    have hne : cal ≠ [] := by
      intro hnil
      rw [hnil] at hw
      simp [lookupKey] at hw
    have hcalT : calendarTruthy (some cal) = true := by
      simp [calendarTruthy, hne]
    have hrc : renderCalendar cal = Except.error "IndexError: list index out of range" := by
      simp only [renderCalendar, hw, hpy]
    have hsd : scheduleDesc e.schedule = Except.error "IndexError: list index out of range" := by
      simp only [scheduleDesc, hint, Bool.false_eq_true, if_false, hcal, Option.getD_some]
      rw [if_pos hcalT]
      exact hrc
    exact listJobs_error_of_mem entries e he _ hsd
  · intro i
    have hlen : days.length = 7 := rfl
    simp only [pyIndex]
    by_cases h0 : 0 ≤ i
    · rw [if_pos h0, isSome_get?_iff, hlen]
      omega
    · rw [if_neg h0]
      by_cases h1 : 0 ≤ i + days.length
      · rw [if_pos h1, isSome_get?_iff, hlen]
        rw [hlen] at h1
        omega
      · rw [if_neg h1]
        rw [hlen] at h1
        simp only [Option.isSome_none, Bool.false_eq_true, false_iff]
        omega

/-- Witness for C10: a one-record registry whose calendar is
`{"Weekday": 7}` makes `list` fail with the IndexError. -/
theorem listJobs_weekday_out_of_range_witness :
    (mkEntry "bad" "cmd" { interval := none, calendar := some [("Weekday", 7)], run_at_load := false } true
      ∈ [mkEntry "bad" "cmd" { interval := none, calendar := some [("Weekday", 7)], run_at_load := false } true]) ∧
    ((mkEntry "bad" "cmd" { interval := none, calendar := some [("Weekday", 7)], run_at_load := false } true).schedule.calendar
      = some [("Weekday", 7)]) ∧
    (intervalTruthy
      (mkEntry "bad" "cmd" { interval := none, calendar := some [("Weekday", 7)], run_at_load := false } true).schedule.interval
      = false) ∧
    (lookupKey [("Weekday", 7)] "Weekday" = some 7) ∧
    ((7 : Int) ≤ 7) ∧
    (listJobs [mkEntry "bad" "cmd" { interval := none, calendar := some [("Weekday", 7)], run_at_load := false } true]
      = Except.error "IndexError: list index out of range" ∧
     (∀ i : Int, (pyIndex days i).isSome ↔ (-7 ≤ i ∧ i < 7))) :=
  ⟨by decide, by decide, by decide, by decide, by decide,
    listJobs_weekday_out_of_range
      [mkEntry "bad" "cmd" { interval := none, calendar := some [("Weekday", 7)], run_at_load := false } true]
      (mkEntry "bad" "cmd" { interval := none, calendar := some [("Weekday", 7)], run_at_load := false } true)
      (by decide) [("Weekday", 7)] (by decide) (by decide) 7 (by decide) (by decide)⟩

end Scheduler
